import Mathlib

/-!
# STM32H7 suspend-to-RAM power management (`arch/arm/mach-stm32/pm_stm32h7.c`)

A shallow embedding of the four functions of the driver
(`stm32_pm_valid`, `stm32_pm_enter`, `stm32_pm_init`, `stm32_pm_cleanup`)
as pure state-passing functions over an explicit world: the SCR register, a
byte-addressed memory, the framework's registries and a trace of the external
calls the driver makes.
-/

namespace Stm32Pm

/-! ## Constants and link-time layout -/

/-- Constants the driver takes from kernel headers that are not part of the
driver file: `PM_SUSPEND_MEM` (`linux/suspend.h`), the mask
`V7M_SCB_SCR_SLEEPDEEP` (`asm/v7m.h`) and `ENODEV` (`errno-base.h`).
Every general theorem below quantifies over them. -/
structure Platform where
  PM_SUSPEND_MEM : Int
  V7M_SCB_SCR_SLEEPDEEP : Nat
  ENODEV : Int

/-- The values the mainline headers give: `PM_SUSPEND_MEM = 3`,
`V7M_SCB_SCR_SLEEPDEEP = 1 << 2`, `ENODEV = 19`. Used for concrete runs. -/
def stm32h7 : Platform := ⟨3, 4, 19⟩

/-- The two build-time switches tested by `stm32_pm_init`. -/
structure Config where
  CONFIG_STM32H7_STOP_MODE : Bool
  CONFIG_PM_LPM_CODE_IN_TCM : Bool

/-- Addresses of the linker symbols declared by the driver
(`__sitcm_text`, `__eitcm_text`, `__itcm_start`, `__sdtcm_data`,
`__edtcm_data`, `__dtcm_start`; leading underscores dropped). -/
structure LinkerSymbols where
  sitcm_text : Nat
  eitcm_text : Nat
  itcm_start : Nat
  sdtcm_data : Nat
  edtcm_data : Nat
  dtcm_start : Nat

/-! ## World -/

/-- Hardware state the low-level routine may touch: the 32-bit SCR register at
`BASEADDR_V7M_SCB + V7M_SCB_SCR` and the byte-addressed memory. -/
structure Hw where
  scr : Nat
  mem : Nat → Nat

/-- Address of a `struct platform_suspend_ops` object; the driver defines one. -/
inductive OpsRef where
  | stm32_pm_ops
  deriving DecidableEq

/-- The two messages the driver prints. -/
inductive Msg where
  | err_register_failed
  | info_power_management
  deriving DecidableEq

/-- External calls made by the driver, in program order. The
`stm32_suspend_to_ram` event records the SCR value at the moment of the call. -/
inductive Event where
  | memcpy (dest src count : Nat)
  | platform_driver_register (drv : String)
  | platform_driver_unregister (drv : String)
  | suspend_set_ops (ops : Option OpsRef)
  | printk (msg : Msg)
  | stm32_suspend_to_ram (scr : Nat)
  deriving DecidableEq

/-- Whether an event is a call of `memcpy`. -/
def Event.isMemcpy : Event → Bool
  | .memcpy _ _ _ => true
  | _ => false

/-- Whether an event is a call of `suspend_set_ops`. -/
def Event.isSetOps : Event → Bool
  | .suspend_set_ops _ => true
  | _ => false

/-- Whole state: hardware, the platform-driver registry, the framework's
`suspend_ops` pointer, and the trace of external calls. -/
structure World where
  hw : Hw
  drivers : List String
  suspend_ops : Option OpsRef
  trace : List Event

/-! ## External collaborators -/

/-- Modelled from the spec: `memcpy` (kernel library code outside the driver
file) copies the region's bytes from source to destination; here as the
forward byte loop `while (count--) *dest++ = *src++`. -/
def memcpy (dest src : Nat) : Nat → (Nat → Nat) → Nat → Nat
  | 0, mem => mem
  | count + 1, mem =>
    memcpy (dest + 1) (src + 1) count (fun a => if a = dest then mem src else mem a)

/-- The `size_t` (32-bit) value of the pointer difference `e - s`. -/
def size_of_ptrdiff (e s : Nat) : Nat :=
  (((e : Int) - (s : Int)) % 2 ^ 32).toNat

/-- Call of `memcpy(dest, src, count)`: the memory is updated, the call logged. -/
def call_memcpy (dest src count : Nat) (w : World) : World :=
  { w with hw := ⟨w.hw.scr, memcpy dest src count w.hw.mem⟩,
           trace := w.trace ++ [Event.memcpy dest src count] }

/-- Modelled from the spec: `platform_driver_register` (driver core, outside
the driver file). Its status is an input of the model; the driver is entered
in the platform-driver registry when the status is 0. -/
def platform_driver_register (drv : String) (status : Int) (w : World) : Int × World :=
  (status,
   { w with drivers := if status = 0 then drv :: w.drivers else w.drivers,
            trace := w.trace ++ [Event.platform_driver_register drv] })

/-- Modelled from the spec: `platform_driver_unregister` (driver core, outside
the driver file): the driver it is passed leaves the platform-driver registry.
It is passed `stm32_pm_driver` only, which holds no reference to any
`platform_suspend_ops`. -/
def platform_driver_unregister (drv : String) (w : World) : World :=
  { w with drivers := w.drivers.erase drv,
           trace := w.trace ++ [Event.platform_driver_unregister drv] }

/-- Modelled from the spec: `suspend_set_ops` (power-management framework,
outside the driver file): the operations passed become the registered ones. -/
def suspend_set_ops (ops : Option OpsRef) (w : World) : World :=
  { w with suspend_ops := ops, trace := w.trace ++ [Event.suspend_set_ops ops] }

/-- Call of `printk`. -/
def printk (msg : Msg) (w : World) : World :=
  { w with trace := w.trace ++ [Event.printk msg] }

/-- Call of `stm32_suspend_to_ram()`: a routine that returns, acting on the
hardware state in any way; the SCR value at the call is logged. -/
def call_stm32_suspend_to_ram (routine : Hw → Hw) (w : World) : World :=
  { w with hw := routine w.hw,
           trace := w.trace ++ [Event.stm32_suspend_to_ram w.hw.scr] }

/-! ## The driver -/

/-- The name of `stm32_pm_driver`, which identifies it in the registry. -/
def stm32_pm_driver : String := "stm32_pm"

/-- The mask as a `u32` operand. -/
def sleepdeep_mask (P : Platform) : Nat := P.V7M_SCB_SCR_SLEEPDEEP % 2 ^ 32

/-- The `u32` operand `~V7M_SCB_SCR_SLEEPDEEP`. -/
def sleepdeep_mask_not (P : Platform) : Nat := (2 ^ 32 - 1) ^^^ sleepdeep_mask P

/-- Volatile store to `*scr` (32 bits wide). -/
def write_scr (v : Nat) (w : World) : World :=
  { w with hw := ⟨v % 2 ^ 32, w.hw.mem⟩ }

/-- Source: `stm32_pm_valid`, a `switch` with the single case `PM_SUSPEND_MEM`. -/
def stm32_pm_valid (P : Platform) (state : Int) : Int :=
  if state = P.PM_SUSPEND_MEM then 1 else 0

/-- Source: `stm32_pm_enter`. The argument `state` is not read. -/
def stm32_pm_enter (P : Platform) (routine : Hw → Hw) (_state : Int) (w : World) :
    Int × World :=
  -- *scr |= V7M_SCB_SCR_SLEEPDEEP;
  let w1 := write_scr (w.hw.scr ||| sleepdeep_mask P) w
  -- stm32_suspend_to_ram();
  let w2 := call_stm32_suspend_to_ram routine w1
  -- *scr &= ~V7M_SCB_SCR_SLEEPDEEP;
  let w3 := write_scr (w2.hw.scr &&& sleepdeep_mask_not P) w2
  (0, w3)

/-- Source: `stm32_pm_init`; `reg_status` is what `platform_driver_register`
returns in this run. -/
def stm32_pm_init (C : Config) (P : Platform) (L : LinkerSymbols) (reg_status : Int)
    (w : World) : Int × World :=
  if C.CONFIG_STM32H7_STOP_MODE then
    let w1 :=
      if C.CONFIG_PM_LPM_CODE_IN_TCM then
        call_memcpy L.sitcm_text L.itcm_start (size_of_ptrdiff L.eitcm_text L.sitcm_text) w
      else w
    let r := platform_driver_register stm32_pm_driver reg_status w1
    if r.1 ≠ 0 then
      (-P.ENODEV, printk Msg.err_register_failed r.2)
    else
      (0, printk Msg.info_power_management (suspend_set_ops (some OpsRef.stm32_pm_ops) r.2))
  else
    (0, w)

/-- Source: `stm32_pm_cleanup`. -/
def stm32_pm_cleanup (w : World) : World :=
  platform_driver_unregister stm32_pm_driver w

/-- Modelled from the spec: the framework's call path (not part of the driver
file): with no operations registered the request is rejected; otherwise the
registered `valid` is asked first and `enter` is invoked for a validated state. -/
def framework_enter (P : Platform) (routine : Hw → Hw) (state : Int) (w : World) :
    Option (Int × World) :=
  match w.suspend_ops with
  | none => none
  | some OpsRef.stm32_pm_ops =>
    if stm32_pm_valid P state ≠ 0 then some (stm32_pm_enter P routine state w) else none

/-! ## Reading the SLEEPDEEP bit -/

/-- The SLEEPDEEP field of an SCR value. -/
def sleepdeep_bits (P : Platform) (scr : Nat) : Nat := scr &&& sleepdeep_mask P

/-- The SLEEPDEEP bit is set. -/
def sleepdeep_set (P : Platform) (scr : Nat) : Prop := sleepdeep_bits P scr = sleepdeep_mask P

/-- The SLEEPDEEP bit is clear. -/
def sleepdeep_clear (P : Platform) (scr : Nat) : Prop := sleepdeep_bits P scr = 0

instance (P : Platform) (scr : Nat) : Decidable (sleepdeep_set P scr) := by
  unfold sleepdeep_set; infer_instance

instance (P : Platform) (scr : Nat) : Decidable (sleepdeep_clear P scr) := by
  unfold sleepdeep_clear; infer_instance

/-- A world with the given SCR value, memory `a ↦ a % 256`, nothing registered. -/
def World.boot (scr : Nat) : World := ⟨⟨scr, fun a => a % 256⟩, [], none, []⟩

/-! ## Observations and concrete inputs -/

/-- The hardware state on which `stm32_pm_enter` invokes the low-level routine. -/
def hw_at_call (P : Platform) (w : World) : Hw :=
  ⟨(w.hw.scr ||| sleepdeep_mask P) % 2 ^ 32, w.hw.mem⟩

/-- A small layout: code destination `[0, 4)` loaded from 100, data
destination `[200, 204)` with its load image at 300. -/
def layout_small : LinkerSymbols := ⟨0, 4, 100, 200, 204, 300⟩

/-- The external calls made between world `w` and a later world `w2`. -/
def events_since (w w2 : World) : List Event := w2.trace.drop w.trace.length

/-- The calls `stm32_pm_init` makes after the optional relocation. -/
def registration_events (reg_status : Int) : List Event :=
  Event.platform_driver_register stm32_pm_driver ::
    (if reg_status = 0 then
      [Event.suspend_set_ops (some OpsRef.stm32_pm_ops), Event.printk Msg.info_power_management]
    else [Event.printk Msg.err_register_failed])

/-! ## Bit-level lemmas -/

theorem sleepdeep_mask_lt (P : Platform) : sleepdeep_mask P < 2 ^ 32 :=
  Nat.mod_lt _ (by norm_num)

theorem or_mask_mod_and_mask (x m : Nat) (hm : m < 2 ^ 32) :
    ((x ||| m) % 2 ^ 32) &&& m = m := by
  apply Nat.eq_of_testBit_eq
  intro i
  simp only [Nat.testBit_and, Nat.testBit_mod_two_pow, Nat.testBit_or]
  by_cases hi : i < 32
  · cases h : m.testBit i <;> simp [hi]
  · have : m.testBit i = false :=
      Nat.testBit_lt_two_pow (lt_of_lt_of_le hm (Nat.pow_le_pow_right (by norm_num) (by omega)))
    simp [this]

theorem and_not_mask_and_mask (y m : Nat) (hm : m < 2 ^ 32) :
    (y &&& ((2 ^ 32 - 1) ^^^ m)) &&& m = 0 := by
  apply Nat.eq_of_testBit_eq
  intro i
  simp only [Nat.testBit_and, Nat.testBit_xor, Nat.testBit_two_pow_sub_one, Nat.zero_testBit]
  by_cases hi : i < 32
  · cases h : m.testBit i <;> simp [hi]
  · have : m.testBit i = false :=
      Nat.testBit_lt_two_pow (lt_of_lt_of_le hm (Nat.pow_le_pow_right (by norm_num) (by omega)))
    simp [this]

/-! ## Claims -/

/-- C1: for every `suspend_state_t` value `s`, `stm32_pm_valid` returns 1
exactly when `s` is `PM_SUSPEND_MEM` and returns 0 exactly when it is any
other value. -/
theorem stm32_pm_valid_iff (P : Platform) (s : Int) :
    (stm32_pm_valid P s = 1 ↔ s = P.PM_SUSPEND_MEM) ∧
    (stm32_pm_valid P s = 0 ↔ s ≠ P.PM_SUSPEND_MEM) := by
  unfold stm32_pm_valid
  by_cases h : s = P.PM_SUSPEND_MEM <;> simp [h]

/-! ### `stm32_pm_enter` -/

theorem stm32_pm_enter_eq (P : Platform) (routine : Hw → Hw) (state : Int) (w : World) :
    stm32_pm_enter P routine state w =
      (0, ⟨⟨((routine (hw_at_call P w)).scr &&& sleepdeep_mask_not P) % 2 ^ 32,
            (routine (hw_at_call P w)).mem⟩,
           w.drivers, w.suspend_ops,
           w.trace ++ [Event.stm32_suspend_to_ram (hw_at_call P w).scr]⟩) := rfl

theorem sleepdeep_set_at_call (P : Platform) (w : World) :
    sleepdeep_set P (hw_at_call P w).scr :=
  or_mask_mod_and_mask _ _ (sleepdeep_mask_lt P)

theorem sleepdeep_mask_not_lt (P : Platform) : sleepdeep_mask_not P < 2 ^ 32 :=
  Nat.xor_lt_two_pow (by norm_num) (sleepdeep_mask_lt P)

theorem and_mask_not_mod (P : Platform) (y : Nat) :
    (y &&& sleepdeep_mask_not P) % 2 ^ 32 = y &&& sleepdeep_mask_not P :=
  Nat.mod_eq_of_lt (lt_of_le_of_lt Nat.and_le_right (sleepdeep_mask_not_lt P))

theorem sleepdeep_clear_after (P : Platform) (y : Nat) :
    sleepdeep_clear P ((y &&& sleepdeep_mask_not P) % 2 ^ 32) := by
  rw [and_mask_not_mod]
  exact and_not_mask_and_mask y _ (sleepdeep_mask_lt P)

theorem or_mask_and_mask_not (P : Platform) (x : Nat) :
    ((x ||| sleepdeep_mask P) % 2 ^ 32) &&& sleepdeep_mask_not P =
      (x % 2 ^ 32) &&& sleepdeep_mask_not P := by
  apply Nat.eq_of_testBit_eq
  intro i
  simp only [sleepdeep_mask_not, Nat.testBit_and, Nat.testBit_xor, Nat.testBit_mod_two_pow,
    Nat.testBit_or, Nat.testBit_two_pow_sub_one]
  by_cases hi : i < 32
  · cases (sleepdeep_mask P).testBit i <;> cases x.testBit i <;> simp [hi]
  · simp [hi]

/-- C2: for every initial SCR value and every low-level routine that returns,
`stm32_pm_enter` invokes `stm32_suspend_to_ram` on a hardware state whose SCR
has SLEEPDEEP set; on return SLEEPDEEP is clear and the status is 0. -/
theorem stm32_pm_enter_sets_then_clears (P : Platform) (routine : Hw → Hw) (state : Int)
    (w : World) :
    (stm32_pm_enter P routine state w).1 = 0 ∧
    (∃ hw, sleepdeep_set P hw.scr ∧
      (stm32_pm_enter P routine state w).2.trace =
        w.trace ++ [Event.stm32_suspend_to_ram hw.scr] ∧
      (stm32_pm_enter P routine state w).2.hw.scr =
        ((routine hw).scr &&& sleepdeep_mask_not P) % 2 ^ 32 ∧
      (stm32_pm_enter P routine state w).2.hw.mem = (routine hw).mem) ∧
    sleepdeep_clear P (stm32_pm_enter P routine state w).2.hw.scr := by
  rw [stm32_pm_enter_eq]
  exact ⟨rfl, ⟨hw_at_call P w, sleepdeep_set_at_call P w, rfl, rfl, rfl⟩,
    sleepdeep_clear_after P _⟩

/-- C3 (as stated) fails: with `V7M_SCB_SCR_SLEEPDEEP = 1 << 2`, SCR = 4
(SLEEPDEEP already set) and a routine that changes nothing, the SLEEPDEEP
field is 4 before the call and 0 after it. -/
theorem stm32_pm_enter_not_restored :
    (∀ h : Hw, (id h).scr = h.scr) ∧
    sleepdeep_bits stm32h7 (World.boot 4).hw.scr = 4 ∧
    sleepdeep_bits stm32h7 (stm32_pm_enter stm32h7 id 3 (World.boot 4)).2.hw.scr = 0 ∧
    sleepdeep_bits stm32h7 (stm32_pm_enter stm32h7 id 3 (World.boot 4)).2.hw.scr ≠
      sleepdeep_bits stm32h7 (World.boot 4).hw.scr := by
  refine ⟨fun _ => rfl, ?_, ?_, ?_⟩ <;> decide

/-- C3 (amended): for every initial SCR value and a routine that leaves SCR
unchanged, SLEEPDEEP is clear after `stm32_pm_enter` returns (SCR is the prior
value with the mask bits cleared); it equals its value before the call exactly
when it was clear before the call. -/
theorem stm32_pm_enter_clears_sleepdeep (P : Platform) (routine : Hw → Hw) (state : Int)
    (w : World) (hr : ∀ h : Hw, (routine h).scr = h.scr) :
    (stm32_pm_enter P routine state w).2.hw.scr =
      (w.hw.scr % 2 ^ 32) &&& sleepdeep_mask_not P ∧
    sleepdeep_clear P (stm32_pm_enter P routine state w).2.hw.scr ∧
    (sleepdeep_bits P (stm32_pm_enter P routine state w).2.hw.scr =
        sleepdeep_bits P w.hw.scr ↔ sleepdeep_clear P w.hw.scr) := by
  have hc := sleepdeep_clear_after P (routine (hw_at_call P w)).scr
  rw [stm32_pm_enter_eq]
  refine ⟨?_, hc, ?_⟩
  · show ((routine (hw_at_call P w)).scr &&& sleepdeep_mask_not P) % 2 ^ 32 = _
    rw [and_mask_not_mod, hr]
    exact or_mask_and_mask_not P w.hw.scr
  · show sleepdeep_bits P (((routine (hw_at_call P w)).scr &&& sleepdeep_mask_not P) % 2 ^ 32) =
      sleepdeep_bits P w.hw.scr ↔ sleepdeep_clear P w.hw.scr
    unfold sleepdeep_clear at hc ⊢
    rw [hc]
    exact eq_comm

/-- Witness for C3 (amended): SCR = 4, the routine is the identity. -/
theorem stm32_pm_enter_clears_sleepdeep_witness :
    (∀ h : Hw, (id h).scr = h.scr) ∧
    ((stm32_pm_enter stm32h7 id 3 (World.boot 4)).2.hw.scr =
      ((World.boot 4).hw.scr % 2 ^ 32) &&& sleepdeep_mask_not stm32h7 ∧
    sleepdeep_clear stm32h7 (stm32_pm_enter stm32h7 id 3 (World.boot 4)).2.hw.scr ∧
    (sleepdeep_bits stm32h7 (stm32_pm_enter stm32h7 id 3 (World.boot 4)).2.hw.scr =
        sleepdeep_bits stm32h7 (World.boot 4).hw.scr ↔
      sleepdeep_clear stm32h7 (World.boot 4).hw.scr)) :=
  ⟨fun _ => rfl, stm32_pm_enter_clears_sleepdeep stm32h7 id 3 (World.boot 4) (fun _ => rfl)⟩

/-- C4 (as stated) fails: for the state 0, which is not `PM_SUSPEND_MEM`, and
SCR = 0, the low-level routine is invoked with SCR = 4, not with the initial
value 0. -/
theorem stm32_pm_enter_unsupported_sets_sleepdeep :
    (0 : Int) ≠ stm32h7.PM_SUSPEND_MEM ∧
    (World.boot 0).hw.scr = 0 ∧
    (stm32_pm_enter stm32h7 id 0 (World.boot 0)).2.trace = [Event.stm32_suspend_to_ram 4] ∧
    (stm32_pm_enter stm32h7 id 0 (World.boot 0)).2.trace ≠
      [Event.stm32_suspend_to_ram (World.boot 0).hw.scr] := by
  refine ⟨?_, ?_, ?_, ?_⟩ <;> decide

/-- C4 (amended): for every state other than `PM_SUSPEND_MEM`, `stm32_pm_enter`
behaves exactly as for `PM_SUSPEND_MEM`: the routine is invoked with SLEEPDEEP
set on the memory as it was before the call, SLEEPDEEP is clear on return, and
`stm32_pm_enter` itself writes no memory (the memory on return is the one the
routine left, hence the initial one when the routine writes none). -/
theorem stm32_pm_enter_ignores_state (P : Platform) (routine : Hw → Hw) (state : Int)
    (w : World) (hs : state ≠ P.PM_SUSPEND_MEM) :
    stm32_pm_valid P state = 0 ∧
    stm32_pm_enter P routine state w = stm32_pm_enter P routine P.PM_SUSPEND_MEM w ∧
    (stm32_pm_enter P routine state w).2.trace =
      w.trace ++ [Event.stm32_suspend_to_ram ((w.hw.scr ||| sleepdeep_mask P) % 2 ^ 32)] ∧
    sleepdeep_set P ((w.hw.scr ||| sleepdeep_mask P) % 2 ^ 32) ∧
    sleepdeep_clear P (stm32_pm_enter P routine state w).2.hw.scr ∧
    (stm32_pm_enter P routine state w).2.hw.mem =
      (routine ⟨(w.hw.scr ||| sleepdeep_mask P) % 2 ^ 32, w.hw.mem⟩).mem ∧
    ((∀ h : Hw, (routine h).mem = h.mem) →
      (stm32_pm_enter P routine state w).2.hw.mem = w.hw.mem) := by
  refine ⟨by simp [stm32_pm_valid, hs], rfl, rfl, sleepdeep_set_at_call P w, ?_, rfl, ?_⟩
  · rw [stm32_pm_enter_eq]
    exact sleepdeep_clear_after P _
  · intro hm
    rw [stm32_pm_enter_eq]
    exact hm (hw_at_call P w)

/-- Witness for C4 (amended): state 0, SCR = 0, the routine is the identity. -/
theorem stm32_pm_enter_ignores_state_witness :
    (0 : Int) ≠ stm32h7.PM_SUSPEND_MEM ∧
    (stm32_pm_valid stm32h7 0 = 0 ∧
    stm32_pm_enter stm32h7 id 0 (World.boot 0) =
      stm32_pm_enter stm32h7 id stm32h7.PM_SUSPEND_MEM (World.boot 0) ∧
    (stm32_pm_enter stm32h7 id 0 (World.boot 0)).2.trace =
      (World.boot 0).trace ++
        [Event.stm32_suspend_to_ram
          (((World.boot 0).hw.scr ||| sleepdeep_mask stm32h7) % 2 ^ 32)] ∧
    sleepdeep_set stm32h7 (((World.boot 0).hw.scr ||| sleepdeep_mask stm32h7) % 2 ^ 32) ∧
    sleepdeep_clear stm32h7 (stm32_pm_enter stm32h7 id 0 (World.boot 0)).2.hw.scr ∧
    (stm32_pm_enter stm32h7 id 0 (World.boot 0)).2.hw.mem =
      (id (⟨((World.boot 0).hw.scr ||| sleepdeep_mask stm32h7) % 2 ^ 32,
        (World.boot 0).hw.mem⟩ : Hw)).mem ∧
    ((∀ h : Hw, (id h).mem = h.mem) →
      (stm32_pm_enter stm32h7 id 0 (World.boot 0)).2.hw.mem = (World.boot 0).hw.mem)) :=
  ⟨by decide, stm32_pm_enter_ignores_state stm32h7 id 0 (World.boot 0) (by decide)⟩

/-- C10: for every initial 32-bit SCR value and a routine that leaves SCR
unchanged, `stm32_pm_enter` changes no bit outside the SLEEPDEEP mask: such a
bit has its initial value both when the routine is invoked and on return, and
the final value is the initial value AND NOT the mask. -/
theorem stm32_pm_enter_other_bits (P : Platform) (routine : Hw → Hw) (state : Int)
    (w : World) (h32 : w.hw.scr < 2 ^ 32) (hr : ∀ h : Hw, (routine h).scr = h.scr) :
    (stm32_pm_enter P routine state w).2.hw.scr = w.hw.scr &&& sleepdeep_mask_not P ∧
    (stm32_pm_enter P routine state w).2.trace =
      w.trace ++ [Event.stm32_suspend_to_ram (w.hw.scr ||| sleepdeep_mask P)] ∧
    ∀ i, (sleepdeep_mask P).testBit i = false →
      (w.hw.scr ||| sleepdeep_mask P).testBit i = w.hw.scr.testBit i ∧
      ((stm32_pm_enter P routine state w).2.hw.scr).testBit i = w.hw.scr.testBit i := by
  have hor : (w.hw.scr ||| sleepdeep_mask P) % 2 ^ 32 = w.hw.scr ||| sleepdeep_mask P :=
    Nat.mod_eq_of_lt (Nat.or_lt_two_pow h32 (sleepdeep_mask_lt P))
  have hfin : (stm32_pm_enter P routine state w).2.hw.scr =
      w.hw.scr &&& sleepdeep_mask_not P := by
    rw [stm32_pm_enter_eq]
    show ((routine (hw_at_call P w)).scr &&& sleepdeep_mask_not P) % 2 ^ 32 = _
    rw [and_mask_not_mod, hr]
    show ((w.hw.scr ||| sleepdeep_mask P) % 2 ^ 32) &&& sleepdeep_mask_not P = _
    rw [or_mask_and_mask_not, Nat.mod_eq_of_lt h32]
  refine ⟨hfin, ?_, ?_⟩
  · rw [stm32_pm_enter_eq]
    show w.trace ++ [Event.stm32_suspend_to_ram ((w.hw.scr ||| sleepdeep_mask P) % 2 ^ 32)] = _
    rw [hor]
  · intro i hi
    have hlt : w.hw.scr.testBit i = true → i < 32 := by
      intro hb
      by_contra hge
      have : w.hw.scr.testBit i = false :=
        Nat.testBit_lt_two_pow
          (lt_of_lt_of_le h32 (Nat.pow_le_pow_right (by norm_num) (by omega)))
      simp [this] at hb
    refine ⟨by simp [Nat.testBit_or, hi], ?_⟩
    rw [hfin]
    simp only [sleepdeep_mask_not, Nat.testBit_and, Nat.testBit_xor,
      Nat.testBit_two_pow_sub_one, hi]
    cases hb : w.hw.scr.testBit i
    · simp
    · simp [hlt hb]

/-- Witness for C10: SCR = 0x16 (SLEEPDEEP and two other bits set), the routine
is the identity. -/
theorem stm32_pm_enter_other_bits_witness :
    (World.boot 22).hw.scr < 2 ^ 32 ∧ (∀ h : Hw, (id h).scr = h.scr) ∧
    ((stm32_pm_enter stm32h7 id 3 (World.boot 22)).2.hw.scr =
      (World.boot 22).hw.scr &&& sleepdeep_mask_not stm32h7 ∧
    (stm32_pm_enter stm32h7 id 3 (World.boot 22)).2.trace =
      (World.boot 22).trace ++
        [Event.stm32_suspend_to_ram ((World.boot 22).hw.scr ||| sleepdeep_mask stm32h7)] ∧
    ∀ i, (sleepdeep_mask stm32h7).testBit i = false →
      ((World.boot 22).hw.scr ||| sleepdeep_mask stm32h7).testBit i =
        (World.boot 22).hw.scr.testBit i ∧
      ((stm32_pm_enter stm32h7 id 3 (World.boot 22)).2.hw.scr).testBit i =
        (World.boot 22).hw.scr.testBit i) :=
  ⟨by decide, fun _ => rfl,
    stm32_pm_enter_other_bits stm32h7 id 3 (World.boot 22) (by decide) (fun _ => rfl)⟩

/-! ### Relocation -/

theorem memcpy_outside (count : Nat) :
    ∀ (dest src : Nat) (mem : Nat → Nat) (a : Nat), (a < dest ∨ dest + count ≤ a) →
      memcpy dest src count mem a = mem a := by
  induction count with
  | zero => intro dest src mem a _; rfl
  | succ n ih =>
    intro dest src mem a ha
    show memcpy (dest + 1) (src + 1) n (fun b => if b = dest then mem src else mem b) a = mem a
    rw [ih (dest + 1) (src + 1) _ a (by omega)]
    have hne : a ≠ dest := by omega
    simp [hne]

theorem memcpy_copied (count : Nat) :
    ∀ (dest src : Nat) (mem : Nat → Nat) (i : Nat),
      (src + count ≤ dest ∨ dest + count ≤ src) → i < count →
      memcpy dest src count mem (dest + i) = mem (src + i) := by
  induction count with
  | zero => intro dest src mem i _ hi; omega
  | succ n ih =>
    intro dest src mem i hd hi
    show memcpy (dest + 1) (src + 1) n (fun b => if b = dest then mem src else mem b)
      (dest + i) = mem (src + i)
    cases i with
    | zero =>
      rw [memcpy_outside n (dest + 1) (src + 1) _ (dest + 0) (by omega)]
      simp
    | succ j =>
      have hidx : dest + (j + 1) = dest + 1 + j := by omega
      rw [hidx, ih (dest + 1) (src + 1) _ j (by omega) (by omega)]
      have hne : src + 1 + j ≠ dest := by omega
      have hsrc : src + 1 + j = src + (j + 1) := by omega
      show (if src + 1 + j = dest then mem src else mem (src + 1 + j)) = mem (src + (j + 1))
      rw [if_neg hne, hsrc]

theorem size_of_ptrdiff_eq (e s : Nat) (hle : s ≤ e) (h32 : e < 2 ^ 32) :
    size_of_ptrdiff e s = e - s := by
  unfold size_of_ptrdiff
  have h1 : ((e : Int) - (s : Int)) = ((e - s : Nat) : Int) := by omega
  rw [h1]
  have h2 : (((e - s : Nat) : Int) % 2 ^ 32) = ((e - s : Nat) : Int) := by
    apply Int.emod_eq_of_lt <;> omega
  rw [h2]
  simp

/-- Memory after `stm32_pm_init` with both switches on: the registration steps
write no byte, so it is the memory `memcpy` left. -/
theorem stm32_pm_init_mem (P : Platform) (L : LinkerSymbols) (reg_status : Int) (w : World) :
    (stm32_pm_init ⟨true, true⟩ P L reg_status w).2.hw.mem =
      memcpy L.sitcm_text L.itcm_start (size_of_ptrdiff L.eitcm_text L.sitcm_text) w.hw.mem := by
  unfold stm32_pm_init
  by_cases h : reg_status = 0 <;>
    simp [h, platform_driver_register, printk, suspend_set_ops, call_memcpy]

/-- C5: with both switches on, a well-formed code region
(`__sitcm_text ≤ __eitcm_text`, 32-bit addresses) and disjoint source and
destination ranges, after `stm32_pm_init` every destination byte
`__sitcm_text + i` holds what `__itcm_start + i` held before the call, and no
byte outside `[__sitcm_text, __eitcm_text)` has changed. -/
theorem stm32_pm_init_relocates_code (P : Platform) (L : LinkerSymbols) (reg_status : Int)
    (w : World) (hle : L.sitcm_text ≤ L.eitcm_text) (h32 : L.eitcm_text < 2 ^ 32)
    (hdisj : L.itcm_start + (L.eitcm_text - L.sitcm_text) ≤ L.sitcm_text ∨
      L.eitcm_text ≤ L.itcm_start) :
    (∀ i, i < L.eitcm_text - L.sitcm_text →
      (stm32_pm_init ⟨true, true⟩ P L reg_status w).2.hw.mem (L.sitcm_text + i) =
        w.hw.mem (L.itcm_start + i)) ∧
    (∀ a, (a < L.sitcm_text ∨ L.eitcm_text ≤ a) →
      (stm32_pm_init ⟨true, true⟩ P L reg_status w).2.hw.mem a = w.hw.mem a) := by
  rw [stm32_pm_init_mem, size_of_ptrdiff_eq _ _ hle h32]
  constructor
  · intro i hi
    exact memcpy_copied _ _ _ _ i (by omega) hi
  · intro a ha
    exact memcpy_outside _ _ _ _ a (by omega)

/-- Witness for C5 on `layout_small`. -/
theorem stm32_pm_init_relocates_code_witness :
    (layout_small.sitcm_text ≤ layout_small.eitcm_text ∧ layout_small.eitcm_text < 2 ^ 32 ∧
      (layout_small.itcm_start + (layout_small.eitcm_text - layout_small.sitcm_text) ≤
          layout_small.sitcm_text ∨ layout_small.eitcm_text ≤ layout_small.itcm_start)) ∧
    ((∀ i, i < layout_small.eitcm_text - layout_small.sitcm_text →
      (stm32_pm_init ⟨true, true⟩ stm32h7 layout_small 0 (World.boot 0)).2.hw.mem
          (layout_small.sitcm_text + i) =
        (World.boot 0).hw.mem (layout_small.itcm_start + i)) ∧
    (∀ a, (a < layout_small.sitcm_text ∨ layout_small.eitcm_text ≤ a) →
      (stm32_pm_init ⟨true, true⟩ stm32h7 layout_small 0 (World.boot 0)).2.hw.mem a =
        (World.boot 0).hw.mem a)) :=
  ⟨by decide,
    stm32_pm_init_relocates_code stm32h7 layout_small 0 (World.boot 0)
      (by decide) (by decide) (by decide)⟩

/-- C6 (as stated) fails: on `layout_small` with memory `a ↦ a % 256`, after
`stm32_pm_init` the first data destination byte (address 200) still holds 200,
while the first byte of the data load image (address 300) held 44. -/
theorem stm32_pm_init_data_not_relocated :
    0 < layout_small.edtcm_data - layout_small.sdtcm_data ∧
    (World.boot 0).hw.mem (layout_small.dtcm_start + 0) = 44 ∧
    (stm32_pm_init ⟨true, true⟩ stm32h7 layout_small 0 (World.boot 0)).2.hw.mem
      (layout_small.sdtcm_data + 0) = 200 ∧
    (stm32_pm_init ⟨true, true⟩ stm32h7 layout_small 0 (World.boot 0)).2.hw.mem
      (layout_small.sdtcm_data + 0) ≠ (World.boot 0).hw.mem (layout_small.dtcm_start + 0) := by
  refine ⟨?_, ?_, ?_, ?_⟩ <;> decide

/-- C6 (amended): with both switches on and a well-formed code region,
`stm32_pm_init` does not relocate the data region: every byte
`__sdtcm_data + i` of the data destination that lies outside the code
destination `[__sitcm_text, __eitcm_text)` holds after the call what it held
before. -/
theorem stm32_pm_init_data_untouched (P : Platform) (L : LinkerSymbols) (reg_status : Int)
    (w : World) (hle : L.sitcm_text ≤ L.eitcm_text) (h32 : L.eitcm_text < 2 ^ 32) :
    ∀ i, i < L.edtcm_data - L.sdtcm_data →
      (L.sdtcm_data + i < L.sitcm_text ∨ L.eitcm_text ≤ L.sdtcm_data + i) →
      (stm32_pm_init ⟨true, true⟩ P L reg_status w).2.hw.mem (L.sdtcm_data + i) =
        w.hw.mem (L.sdtcm_data + i) := by
  intro i _ ha
  rw [stm32_pm_init_mem, size_of_ptrdiff_eq _ _ hle h32]
  exact memcpy_outside _ _ _ _ _ (by omega)

/-- Witness for C6 (amended) on `layout_small`, at offset 0. -/
theorem stm32_pm_init_data_untouched_witness :
    (layout_small.sitcm_text ≤ layout_small.eitcm_text ∧ layout_small.eitcm_text < 2 ^ 32 ∧
      0 < layout_small.edtcm_data - layout_small.sdtcm_data ∧
      (layout_small.sdtcm_data + 0 < layout_small.sitcm_text ∨
        layout_small.eitcm_text ≤ layout_small.sdtcm_data + 0)) ∧
    (stm32_pm_init ⟨true, true⟩ stm32h7 layout_small 0 (World.boot 0)).2.hw.mem
        (layout_small.sdtcm_data + 0) =
      (World.boot 0).hw.mem (layout_small.sdtcm_data + 0) :=
  ⟨by decide,
    stm32_pm_init_data_untouched stm32h7 layout_small 0 (World.boot 0)
      (by decide) (by decide) 0 (by decide) (by decide)⟩

/-! ### Registration -/

theorem stm32_pm_init_events (b : Bool) (P : Platform) (L : LinkerSymbols) (reg_status : Int)
    (w : World) :
    events_since w (stm32_pm_init ⟨true, b⟩ P L reg_status w).2 =
      (if b then
        [Event.memcpy L.sitcm_text L.itcm_start (size_of_ptrdiff L.eitcm_text L.sitcm_text)]
      else []) ++ registration_events reg_status := by
  unfold stm32_pm_init events_since registration_events
  by_cases h : reg_status = 0 <;> cases b <;>
    simp [h, platform_driver_register, printk, suspend_set_ops, call_memcpy]

/-- C7: with deep-sleep support on, when `platform_driver_register` returns a
non-zero status `stm32_pm_init` returns `-ENODEV` (negative, as `ENODEV` is
positive), makes no call of `suspend_set_ops` and leaves the framework's
operations as they were; when it returns 0, `stm32_pm_init` registers
`stm32_pm_ops` and returns 0. -/
theorem stm32_pm_init_status (b : Bool) (P : Platform) (L : LinkerSymbols) (reg_status : Int)
    (w : World) (hE : 0 < P.ENODEV) :
    (reg_status ≠ 0 →
      (stm32_pm_init ⟨true, b⟩ P L reg_status w).1 = -P.ENODEV ∧
      (stm32_pm_init ⟨true, b⟩ P L reg_status w).1 < 0 ∧
      (stm32_pm_init ⟨true, b⟩ P L reg_status w).2.suspend_ops = w.suspend_ops ∧
      ∀ e ∈ events_since w (stm32_pm_init ⟨true, b⟩ P L reg_status w).2, e.isSetOps = false) ∧
    (reg_status = 0 →
      (stm32_pm_init ⟨true, b⟩ P L reg_status w).1 = 0 ∧
      (stm32_pm_init ⟨true, b⟩ P L reg_status w).2.suspend_ops = some OpsRef.stm32_pm_ops ∧
      Event.suspend_set_ops (some OpsRef.stm32_pm_ops) ∈
        events_since w (stm32_pm_init ⟨true, b⟩ P L reg_status w).2) := by
  constructor
  · intro h
    refine ⟨?_, ?_, ?_, ?_⟩
    · simp [stm32_pm_init, platform_driver_register, h]
    · simp [stm32_pm_init, platform_driver_register, h, hE]
    · cases b <;>
        simp [stm32_pm_init, platform_driver_register, printk, call_memcpy, h]
    · rw [stm32_pm_init_events]
      intro e he
      cases b <;> simp [registration_events, h] at he
      · rcases he with rfl | rfl <;> rfl
      · rcases he with rfl | rfl | rfl <;> rfl
  · intro h
    refine ⟨?_, ?_, ?_⟩
    · simp [stm32_pm_init, platform_driver_register, h]
    · cases b <;>
        simp [stm32_pm_init, platform_driver_register, printk, suspend_set_ops, call_memcpy, h]
    · rw [stm32_pm_init_events]
      simp [registration_events, h]

/-- Witness for C7: `ENODEV = 19`, relocation on, a failing registration
(status -16) from the boot world. -/
theorem stm32_pm_init_status_witness :
    (0 : Int) < stm32h7.ENODEV ∧
    (((-16 : Int) ≠ 0 →
      (stm32_pm_init ⟨true, true⟩ stm32h7 layout_small (-16) (World.boot 0)).1 =
        -stm32h7.ENODEV ∧
      (stm32_pm_init ⟨true, true⟩ stm32h7 layout_small (-16) (World.boot 0)).1 < 0 ∧
      (stm32_pm_init ⟨true, true⟩ stm32h7 layout_small (-16) (World.boot 0)).2.suspend_ops =
        (World.boot 0).suspend_ops ∧
      ∀ e ∈ events_since (World.boot 0)
          (stm32_pm_init ⟨true, true⟩ stm32h7 layout_small (-16) (World.boot 0)).2,
        e.isSetOps = false) ∧
    ((-16 : Int) = 0 →
      (stm32_pm_init ⟨true, true⟩ stm32h7 layout_small (-16) (World.boot 0)).1 = 0 ∧
      (stm32_pm_init ⟨true, true⟩ stm32h7 layout_small (-16) (World.boot 0)).2.suspend_ops =
        some OpsRef.stm32_pm_ops ∧
      Event.suspend_set_ops (some OpsRef.stm32_pm_ops) ∈
        events_since (World.boot 0)
          (stm32_pm_init ⟨true, true⟩ stm32h7 layout_small (-16) (World.boot 0)).2)) :=
  ⟨by decide, stm32_pm_init_status true stm32h7 layout_small (-16) (World.boot 0) (by decide)⟩

/-- C9: with both switches on, every run of `stm32_pm_init` makes exactly one
`memcpy` call, and it is the first external call of the run: it comes before
`platform_driver_register` and before `suspend_set_ops` (made only when the
registration returned 0). -/
theorem stm32_pm_init_copy_first (P : Platform) (L : LinkerSymbols) (reg_status : Int)
    (w : World) :
    events_since w (stm32_pm_init ⟨true, true⟩ P L reg_status w).2 =
      Event.memcpy L.sitcm_text L.itcm_start (size_of_ptrdiff L.eitcm_text L.sitcm_text) ::
        Event.platform_driver_register stm32_pm_driver ::
          (if reg_status = 0 then
            [Event.suspend_set_ops (some OpsRef.stm32_pm_ops),
             Event.printk Msg.info_power_management]
          else [Event.printk Msg.err_register_failed]) ∧
    (events_since w (stm32_pm_init ⟨true, true⟩ P L reg_status w).2).countP Event.isMemcpy = 1 ∧
    (stm32_pm_init ⟨true, true⟩ P L reg_status w).2.hw.mem =
      memcpy L.sitcm_text L.itcm_start (size_of_ptrdiff L.eitcm_text L.sitcm_text) w.hw.mem := by
  rw [stm32_pm_init_events]
  refine ⟨rfl, ?_, stm32_pm_init_mem P L reg_status w⟩
  by_cases h : reg_status = 0 <;> simp [registration_events, h, Event.isMemcpy]

/-- C8 (the code at the failing run): from the boot world with SCR = 0, a
successful `stm32_pm_init` followed by `stm32_pm_cleanup` leaves no platform
driver registered, yet the framework's operations still refer to
`stm32_pm_ops`; a framework call to enter `PM_SUSPEND_MEM` is then accepted,
invokes the low-level routine with SCR = 4 and so writes SCR after teardown. -/
theorem stm32_pm_cleanup_keeps_ops :
    (stm32_pm_init ⟨true, true⟩ stm32h7 layout_small 0 (World.boot 0)).1 = 0 ∧
    (stm32_pm_cleanup
      (stm32_pm_init ⟨true, true⟩ stm32h7 layout_small 0 (World.boot 0)).2).drivers = [] ∧
    (stm32_pm_cleanup
      (stm32_pm_init ⟨true, true⟩ stm32h7 layout_small 0 (World.boot 0)).2).suspend_ops =
        some OpsRef.stm32_pm_ops ∧
    events_since (stm32_pm_init ⟨true, true⟩ stm32h7 layout_small 0 (World.boot 0)).2
      (stm32_pm_cleanup
        (stm32_pm_init ⟨true, true⟩ stm32h7 layout_small 0 (World.boot 0)).2) =
        [Event.platform_driver_unregister stm32_pm_driver] ∧
    (framework_enter stm32h7 id 3
      (stm32_pm_cleanup
        (stm32_pm_init ⟨true, true⟩ stm32h7 layout_small 0 (World.boot 0)).2)).isSome = true ∧
    ((framework_enter stm32h7 id 3
      (stm32_pm_cleanup
        (stm32_pm_init ⟨true, true⟩ stm32h7 layout_small 0 (World.boot 0)).2)).map
      (fun r => events_since
        (stm32_pm_cleanup
          (stm32_pm_init ⟨true, true⟩ stm32h7 layout_small 0 (World.boot 0)).2) r.2)) =
        some [Event.stm32_suspend_to_ram 4] := by
  refine ⟨?_, ?_, ?_, ?_, ?_, ?_⟩ <;> decide

end Stm32Pm
